import Mathlib

/-!
Verification of `optimed_api` (src/api/index.js), an Express service that maps
an inbound prospect record to a NetSuite customer payload and submits it.

The JavaScript dynamic values that flow through the program are modelled by
`JSValue`, with the JS coercions used by the source (truthiness, `typeof`,
template-literal stringification, `||`, optional chaining) made explicit.
-/

namespace OptimedApi

/-- A JavaScript runtime value, as relevant to this program: `undefined`,
`null`, booleans, (integer) numbers, strings, arrays and plain objects
(association lists of string keys, in insertion order). -/
inductive JSValue where
  | undefined : JSValue
  | nullv : JSValue
  | bool : Bool → JSValue
  | num : Int → JSValue
  | str : String → JSValue
  | arr : List JSValue → JSValue
  | obj : List (String × JSValue) → JSValue
deriving Repr

/-- JS property read on an object's field list: the value of the first field
with the given key, `undefined` when absent. -/
def getField : List (String × JSValue) → String → JSValue
  | [], _ => .undefined
  | (k, v) :: rest, key => if key = k then v else getField rest key

/-- JS property read `v.key` for the value shapes this program meets
(non-object bases have no such named property here, yielding `undefined`). -/
def getProp : JSValue → String → JSValue
  | .obj fs, key => getField fs key
  | _, _ => .undefined

/-- JS truthiness: `undefined`, `null`, `false`, `0` and `""` are falsy;
every array and object is truthy. -/
def jsTruthy : JSValue → Bool
  | .undefined => false
  | .nullv => false
  | .bool b => b
  | .num n => n != 0
  | .str s => !s.isEmpty
  | .arr _ => true
  | .obj _ => true

/-- JS `typeof`: note `typeof null` and `typeof` of any array are both
the string "object". -/
def jsTypeof : JSValue → String
  | .undefined => "undefined"
  | .nullv => "object"
  | .bool _ => "boolean"
  | .num _ => "number"
  | .str _ => "string"
  | .arr _ => "object"
  | .obj _ => "object"

/-- JS `a || b`: `a` when truthy, otherwise `b`. -/
def jsOr (a b : JSValue) : JSValue :=
  if jsTruthy a then a else b

/-- JS optional-chained index `v?.[0]`: `undefined` for a nullish base,
element 0 of an array (or `undefined` past the end), character 0 of a
string, property "0" of an object. -/
def jsOptIndex0 : JSValue → JSValue
  | .undefined => .undefined
  | .nullv => .undefined
  | .arr xs => xs.headD .undefined
  | .str s =>
      match s.data with
      | [] => .undefined
      | c :: _ => .str (String.mk [c])
  | .obj fs => getField fs "0"
  | .bool _ => .undefined
  | .num _ => .undefined

/-- JS optional-chained property read `v?.key`: `undefined` for a nullish
base, otherwise the property read. -/
def jsOptChainProp (v : JSValue) (key : String) : JSValue :=
  match v with
  | .undefined => .undefined
  | .nullv => .undefined
  | v => getProp v key

mutual
/-- JS string conversion as performed inside a template literal:
`undefined` becomes the text "undefined", `null` becomes "null",
arrays join their elements with commas (nullish elements as empty text),
plain objects print as "[object Object]". -/
def jsToString : JSValue → String
  | .undefined => "undefined"
  | .nullv => "null"
  | .bool b => if b then "true" else "false"
  | .num n => toString n
  | .str s => s
  | .arr xs => String.intercalate "," (jsArrayElemStrings xs)
  | .obj _ => "[object Object]"

/-- Stringification of array elements for `jsToString`: inside
`Array.prototype.join`, `undefined` and `null` render as empty text. -/
def jsArrayElemStrings : List JSValue → List String
  | [] => []
  | .undefined :: rest => "" :: jsArrayElemStrings rest
  | .nullv :: rest => "" :: jsArrayElemStrings rest
  | v :: rest => jsToString v :: jsArrayElemStrings rest
end

/-- JS `String.prototype.toLowerCase`, for the ASCII account identifiers this
program configures: lowercase every character. -/
def jsToLowerCase (s : String) : String :=
  ⟨s.data.map Char.toLower⟩

/-- Core of `String.prototype.replace` with the one-character literal pattern
"_" and replacement "-": only the FIRST occurrence of '_' is replaced. -/
def replaceFirstUnderscoreAux : List Char → List Char
  | [] => []
  | c :: cs => if c = '_' then '-' :: cs else c :: replaceFirstUnderscoreAux cs

/-- JS `accountId.toLowerCase().replace("_", "-")` applied to a string. -/
def jsReplaceFirstUnderscore (s : String) : String :=
  ⟨replaceFirstUnderscoreAux s.data⟩

/-- The constant `BASE_URL` of index.js, as a function of the configured
`NETSUITE_ACCOUNT_ID`. -/
def BASE_URL (accountId : String) : String :=
  "https://" ++ jsReplaceFirstUnderscore (jsToLowerCase accountId) ++
    ".suitetalk.api.netsuite.com/services/rest/record/v1/customer"

/-- The `prospectData` object literal built by `createProspect`, field by
field in source order, from the inbound `customerData` value. -/
def prospectData (customerData : JSValue) : List (String × JSValue) :=
  [ ("companyName", getProp customerData "COMPANY_NAME"),
    ("isPerson", .bool true),
    ("entityId", .str (jsToString (getProp customerData "COMPANY_NAME") ++
        " - " ++ jsToString (getProp customerData "LAST_NAME"))),
    ("subsidiary", .obj [("id", .str "17")]),
    ("firstName", getProp customerData "FIRST_NAME"),
    ("lastName", getProp customerData "LAST_NAME"),
    ("title", getProp customerData "JOB_TITLE"),
    ("email", jsOr (jsOptIndex0 (getProp customerData "BUSINESS_EMAIL")) (.str "")),
    ("altEmail", jsOr (jsOptIndex0 (getProp customerData "PERSONAL_EMAILS")) (.str "")),
    ("mobilePhone", jsOr (jsOptIndex0 (getProp customerData "MOBILE_PHONE")) (.str "")),
    ("phone", jsOr (getProp customerData "COMPANY_PHONE") (.str "")),
    ("entityStatus", .obj [("id", .str "8")]),
    ("comments", .str (
        "\n      Source UUID: " ++ jsToString (getProp customerData "UUID") ++
        "\n      Relevance Score: " ++ jsToString (getProp customerData "RELEVANCE_SCORE") ++
        " (Completeness: " ++ jsToString (getProp customerData "COMPLETENESS_SCORE") ++ ")" ++
        "\n      COMPANY SUMMARY: " ++ jsToString (getProp customerData "COMPANY_SUMMARY") ++
        "\n      RELEVANCE DESCRIPTION: " ++ jsToString (getProp customerData "RELEVANCE_DESCRIPTION") ++
        "\n    ")),
    ("addressbook", .obj [
      ("items", .arr [
        .obj [
          ("defaultShipping", .bool true),
          ("defaultBilling", .bool true),
          ("label", .str "Company HQ"),
          ("addressBookAddress", .obj [
            ("addressee", getProp customerData "COMPANY_NAME"),
            ("attention", .str (jsToString (getProp customerData "FIRST_NAME") ++
                " " ++ jsToString (getProp customerData "LAST_NAME"))),
            ("addr1", getProp customerData "COMPANY_ADDRESS"),
            ("city", getProp customerData "COMPANY_CITY"),
            ("state", getProp customerData "COMPANY_STATE"),
            ("zip", getProp customerData "COMPANY_ZIP"),
            ("addrPhone", getProp customerData "COMPANY_PHONE"),
            ("country", .obj [("id", .str "US")])
          ])
        ]
      ])
    ])
  ]

/-- An axios error as `createProspect`'s catch block inspects it:
`error.response` (an object carrying a `data` field for an HTTP error
response, `undefined` for a transport-level failure) and `error.message`. -/
structure AxiosError where
  response : JSValue
  message : String

/-- Outcome of the outbound `axios.post`: the parsed response body on a 2xx
response, an `AxiosError` otherwise. -/
def RemoteOutcome := Except AxiosError JSValue

/-- The value returned by `createProspect` once the outbound call has
resolved: on success the object with `success: true` and the response data,
on failure the catch block's object with `success: false` and
`error.response?.data || error.message` as the error detail. -/
def createProspect (remote : RemoteOutcome) : JSValue :=
  match remote with
  | .ok data => .obj [("success", .bool true), ("data", data)]
  | .error e => .obj [("success", .bool false),
      ("error", jsOr (jsOptChainProp e.response "data") (.str e.message))]

/-- The HTTP auth header map built by `createProspect`: the library-produced
`Authorization` value with `, realm="ACCOUNT_ID"` appended by
`authHeader.Authorization += ...`. The oauth-1.0a library is external to
the repository, so its output is a parameter `libAuthorization`. -/
def authorizationHeaderValue (libAuthorization accountId : String) : String :=
  libAuthorization ++ ", realm=\"" ++ accountId ++ "\""

/-- The outbound HTTP request issued by `createProspect`: method, URL and
header list as passed to `axios.post`. -/
structure OutboundRequest where
  method : String
  url : String
  headers : List (String × String)

/-- The outbound request `createProspect` issues, as a function of the
configured account id and of the library-generated Authorization value. -/
def outboundRequest (accountId libAuthorization : String) : OutboundRequest :=
  { method := "POST",
    url := BASE_URL accountId,
    headers := [
      ("Authorization", authorizationHeaderValue libAuthorization accountId),
      ("Content-Type", "application/json"),
      ("Prefer", "return=representation")
    ] }

/-- An HTTP response of the inbound API: status code and JSON body. -/
structure RouteResponse where
  status : Nat
  body : JSValue

/-- Result of one POST /api/create-prospect request: the response sent and
whether the remote call was attempted. -/
structure RouteResult where
  response : RouteResponse
  remoteCalled : Bool

/-- The body-validation test of the route handler, verbatim from
`if (!prospect || typeof prospect !== "object")`. -/
def invalidBody (prospect : JSValue) : Bool :=
  !jsTruthy prospect || jsTypeof prospect != "object"

/-- The POST /api/create-prospect handler: reject invalid bodies with
400 and an error object; otherwise run `create_prospect_netsuite` (whose
result is discarded) and answer 200 with the fixed success object.
`remote` stands for how the outbound call would resolve if attempted. -/
def createProspectRoute (body : JSValue) (remote : RemoteOutcome) : RouteResult :=
  if invalidBody body then
    { response := { status := 400, body := .obj [("error", .str "Invalid JSON payload")] },
      remoteCalled := false }
  else
    let _result := createProspect remote
    { response := { status := 200, body := .obj [
        ("status", .str "success"),
        ("message", .str "Record created successfully")] },
      remoteCalled := true }

/-- The five credential environment variables read at startup; `none` models
an unset variable. -/
structure CredentialEnv where
  NETSUITE_ACCOUNT_ID : Option String
  NETSUITE_CONSUMER_KEY : Option String
  NETSUITE_CONSUMER_SECRET : Option String
  NETSUITE_TOKEN_ID : Option String
  NETSUITE_TOKEN_SECRET : Option String

/-- JS truthiness of a `process.env` read: an unset variable is `undefined`
(falsy) and the empty string is falsy. -/
def credTruthy : Option String → Bool
  | none => false
  | some s => !s.isEmpty

/-- What the process does after the startup validation block: exit with a
status code before binding, or bind the listener. -/
inductive StartupResult where
  | exited : Nat → StartupResult
  | listening : StartupResult
deriving Repr, DecidableEq

/-- Startup control flow of index.js: `process.exit(1)` when any of the five
credential variables is falsy, otherwise fall through to `app.listen`. -/
def startup (env : CredentialEnv) : StartupResult :=
  if !credTruthy env.NETSUITE_ACCOUNT_ID ||
     !credTruthy env.NETSUITE_CONSUMER_KEY ||
     !credTruthy env.NETSUITE_CONSUMER_SECRET ||
     !credTruthy env.NETSUITE_TOKEN_ID ||
     !credTruthy env.NETSUITE_TOKEN_SECRET then
    .exited 1
  else
    .listening

mutual
/-- The value a JS value serializes as under `JSON.stringify`: object
properties whose value is `undefined` are omitted, array elements that are
`undefined` serialize as `null`, other values are kept (recursively). -/
def jsonNormalize : JSValue → JSValue
  | .obj fs => .obj (jsonNormalizeFields fs)
  | .arr xs => .arr (jsonNormalizeElems xs)
  | v => v

/-- Effect of `JSON.stringify` on an object's field list: drop
`undefined`-valued properties, normalize the rest. -/
def jsonNormalizeFields : List (String × JSValue) → List (String × JSValue)
  | [] => []
  | (_, .undefined) :: rest => jsonNormalizeFields rest
  | (k, v) :: rest => (k, jsonNormalize v) :: jsonNormalizeFields rest

/-- Effect of `JSON.stringify` on an array's elements: `undefined` becomes
`null`, the rest are normalized. -/
def jsonNormalizeElems : List JSValue → List JSValue
  | [] => []
  | .undefined :: rest => .nullv :: jsonNormalizeElems rest
  | v :: rest => jsonNormalize v :: jsonNormalizeElems rest
end

/-- The nested address object of the payload's single address-book entry,
reached by the JS reads prospectData.addressbook.items[0].addressBookAddress. -/
def addressBookAddressOf (cd : JSValue) : JSValue :=
  getProp (jsOptIndex0 (getProp (getField (prospectData cd) "addressbook") "items"))
    "addressBookAddress"

/-- Property names an object value retains under JSON serialization
(empty for non-objects). -/
def normalizedKeys (v : JSValue) : List String :=
  match jsonNormalize v with
  | .obj fs => fs.map Prod.fst
  | _ => []

/-- A credential environment variable is present and non-empty. -/
def credPresent (v : Option String) : Prop :=
  ∃ s, v = some s ∧ s ≠ ""

/-! ## Shared helper lemmas -/

theorem credTruthy_iff (v : Option String) : credTruthy v = true ↔ credPresent v := by
  cases v with
  | none =>
      simp [credTruthy, credPresent]
  | some s =>
      unfold credTruthy credPresent
      constructor
      · intro h
        refine ⟨s, rfl, fun he => ?_⟩
        subst he
        exact absurd h (by decide)
      · rintro ⟨t, ht, hne⟩
        injection ht with ht
        subst ht
        have hf : s.isEmpty = false := by
          cases hb : s.isEmpty
          · rfl
          · exact absurd ((String.isEmpty_iff s).mp hb) hne
        simp [hf]

theorem jsOr_str_empty_right (s : String) : jsOr (.str s) (.str "") = .str s := by
  unfold jsOr jsTruthy
  cases hb : s.isEmpty
  · simp [hb]
  · rw [(String.isEmpty_iff s).mp hb]
    rfl

theorem exists_of_mem_normalized_keys :
    ∀ (fs : List (String × JSValue)) (k : String),
      k ∈ (jsonNormalizeFields fs).map Prod.fst →
      ∃ v, (k, v) ∈ fs ∧ v ≠ JSValue.undefined := by
  intro fs
  induction fs with
  | nil =>
      intro k h
      simp [jsonNormalizeFields] at h
  | cons p rest ih =>
      intro k h
      obtain ⟨k1, v1⟩ := p
      cases v1 <;>
        simp only [jsonNormalizeFields, List.map_cons, List.mem_cons] at h <;>
        first
        | exact (ih k h).imp fun v hv => ⟨List.mem_cons_of_mem _ hv.1, hv.2⟩
        | (rcases h with h | h
           · subst h
             exact ⟨_, List.mem_cons_self _ _, fun hc => JSValue.noConfusion hc⟩
           · exact (ih k h).imp fun v hv => ⟨List.mem_cons_of_mem _ hv.1, hv.2⟩)

theorem replaceFirstUnderscoreAux_spec :
    ∀ (a b : List Char), '_' ∉ a →
      replaceFirstUnderscoreAux (a ++ '_' :: b) = a ++ '-' :: b := by
  intro a
  induction a with
  | nil =>
      intro b _
      simp [replaceFirstUnderscoreAux]
  | cons c cs ih =>
      intro b hmem
      have hc : c ≠ '_' := fun h => hmem (h ▸ List.mem_cons_self c cs)
      have hcs : '_' ∉ cs := fun h => hmem (List.mem_cons_of_mem c h)
      simp only [List.cons_append, replaceFirstUnderscoreAux, List.append_eq]
      rw [if_neg hc, ih b hcs]

/-! ## Claim theorems -/

/-- C4: for every inbound record whose company-name and last-name fields are
strings, the entityId of the constructed payload is the plain concatenation
of the company name, the literal " - ", and the last name, with no further
normalization. -/
theorem entityId_plain_concatenation (cd : JSValue) (c l : String)
    (hc : getProp cd "COMPANY_NAME" = .str c)
    (hl : getProp cd "LAST_NAME" = .str l) :
    getField (prospectData cd) "entityId" = .str (c ++ " - " ++ l) := by
  have h : getField (prospectData cd) "entityId" =
      .str (jsToString (getProp cd "COMPANY_NAME") ++ " - " ++
        jsToString (getProp cd "LAST_NAME")) := rfl
  rw [h, hc, hl]
  rfl

/-- Witness for C4 at companyName "Acme" and lastName "Smith": the entityId
is exactly "Acme - Smith". -/
theorem entityId_plain_concatenation_witness :
    getField (prospectData (.obj [("COMPANY_NAME", .str "Acme"),
      ("LAST_NAME", .str "Smith")])) "entityId" = .str "Acme - Smith" :=
  entityId_plain_concatenation _ "Acme" "Smith" rfl rfl

/-- C5: email is element 0 of the BUSINESS_EMAIL collection (later elements
ignored) or "" when the collection is absent or empty; altEmail and
mobilePhone are likewise element 0 of PERSONAL_EMAILS and MOBILE_PHONE or
""; phone is the COMPANY_PHONE field or "". -/
theorem first_element_or_empty (cd : JSValue) :
    ((getProp cd "BUSINESS_EMAIL" = .undefined ∨ getProp cd "BUSINESS_EMAIL" = .arr []) →
        getField (prospectData cd) "email" = .str "")
    ∧ (∀ s rest, getProp cd "BUSINESS_EMAIL" = .arr (.str s :: rest) →
        getField (prospectData cd) "email" = .str s)
    ∧ ((getProp cd "PERSONAL_EMAILS" = .undefined ∨ getProp cd "PERSONAL_EMAILS" = .arr []) →
        getField (prospectData cd) "altEmail" = .str "")
    ∧ (∀ s rest, getProp cd "PERSONAL_EMAILS" = .arr (.str s :: rest) →
        getField (prospectData cd) "altEmail" = .str s)
    ∧ ((getProp cd "MOBILE_PHONE" = .undefined ∨ getProp cd "MOBILE_PHONE" = .arr []) →
        getField (prospectData cd) "mobilePhone" = .str "")
    ∧ (∀ s rest, getProp cd "MOBILE_PHONE" = .arr (.str s :: rest) →
        getField (prospectData cd) "mobilePhone" = .str s)
    ∧ (getProp cd "COMPANY_PHONE" = .undefined →
        getField (prospectData cd) "phone" = .str "")
    ∧ (∀ s, getProp cd "COMPANY_PHONE" = .str s →
        getField (prospectData cd) "phone" = .str s) := by
  have he : getField (prospectData cd) "email" =
      jsOr (jsOptIndex0 (getProp cd "BUSINESS_EMAIL")) (.str "") := rfl
  have ha : getField (prospectData cd) "altEmail" =
      jsOr (jsOptIndex0 (getProp cd "PERSONAL_EMAILS")) (.str "") := rfl
  have hm : getField (prospectData cd) "mobilePhone" =
      jsOr (jsOptIndex0 (getProp cd "MOBILE_PHONE")) (.str "") := rfl
  have hph : getField (prospectData cd) "phone" =
      jsOr (getProp cd "COMPANY_PHONE") (.str "") := rfl
  refine ⟨?_, ?_, ?_, ?_, ?_, ?_, ?_, ?_⟩
  · rintro (h | h) <;> (rw [he, h]; rfl)
  · intro s rest h
    rw [he, h]
    exact jsOr_str_empty_right s
  · rintro (h | h) <;> (rw [ha, h]; rfl)
  · intro s rest h
    rw [ha, h]
    exact jsOr_str_empty_right s
  · rintro (h | h) <;> (rw [hm, h]; rfl)
  · intro s rest h
    rw [hm, h]
    exact jsOr_str_empty_right s
  · intro h
    rw [hph, h]
    rfl
  · intro s h
    rw [hph, h]
    exact jsOr_str_empty_right s

/-- Witness for C5: with a two-element business-email collection the email
field is the first element, and with PERSONAL_EMAILS absent the altEmail
field is the empty string. -/
theorem first_element_or_empty_witness :
    getField (prospectData (.obj [("BUSINESS_EMAIL",
      .arr [.str "a@example.com", .str "b@example.com"])])) "email" = .str "a@example.com"
    ∧ getField (prospectData (.obj [("BUSINESS_EMAIL",
      .arr [.str "a@example.com", .str "b@example.com"])])) "altEmail" = .str "" := by
  constructor
  · exact (first_element_or_empty _).2.1 "a@example.com" [.str "b@example.com"] rfl
  · exact (first_element_or_empty _).2.2.1 (Or.inl rfl)

/-- C1 counterexample: on the record with every field absent, the mapping
does NOT substitute the empty string throughout — the firstName payload
field stays undefined (not ""), and the interpolated entityId embeds the
literal text "undefined" instead of the empty string. -/
theorem absent_fields_counterexample :
    getField (prospectData (.obj [])) "firstName" = .undefined
    ∧ JSValue.undefined ≠ JSValue.str ""
    ∧ getField (prospectData (.obj [])) "entityId" = .str "undefined - undefined"
    ∧ JSValue.str "undefined - undefined" ≠ JSValue.str " - " := by
  refine ⟨rfl, fun h => JSValue.noConfusion h, rfl, fun h => ?_⟩
  injection h with h1
  exact absurd h1 (by decide)

/-- C1 amended: the mapping proceeds on every record; the empty-string
substitution applies only to the email, altEmail, mobilePhone and phone
fields, when their source is absent or empty; each directly copied field
(companyName, firstName, lastName, title, addr1, city, state, zip,
addrPhone) is left undefined when its own source is absent — and is then
omitted from the serialized JSON — and the interpolated entityId,
attention and comments strings embed the literal text "undefined" in
place of each absent source field rather than the empty string. -/
theorem absent_fields_amended (cd : JSValue) :
    ((getProp cd "BUSINESS_EMAIL" = .undefined ∨ getProp cd "BUSINESS_EMAIL" = .arr []) →
        getField (prospectData cd) "email" = .str "")
    ∧ ((getProp cd "PERSONAL_EMAILS" = .undefined ∨ getProp cd "PERSONAL_EMAILS" = .arr []) →
        getField (prospectData cd) "altEmail" = .str "")
    ∧ ((getProp cd "MOBILE_PHONE" = .undefined ∨ getProp cd "MOBILE_PHONE" = .arr []) →
        getField (prospectData cd) "mobilePhone" = .str "")
    ∧ ((getProp cd "COMPANY_PHONE" = .undefined ∨ getProp cd "COMPANY_PHONE" = .str "") →
        getField (prospectData cd) "phone" = .str "")
    ∧ (getProp cd "COMPANY_NAME" = .undefined →
        getField (prospectData cd) "companyName" = .undefined
        ∧ "companyName" ∉ normalizedKeys (.obj (prospectData cd)))
    ∧ (getProp cd "FIRST_NAME" = .undefined →
        getField (prospectData cd) "firstName" = .undefined
        ∧ "firstName" ∉ normalizedKeys (.obj (prospectData cd)))
    ∧ (getProp cd "LAST_NAME" = .undefined →
        getField (prospectData cd) "lastName" = .undefined
        ∧ "lastName" ∉ normalizedKeys (.obj (prospectData cd)))
    ∧ (getProp cd "JOB_TITLE" = .undefined →
        getField (prospectData cd) "title" = .undefined
        ∧ "title" ∉ normalizedKeys (.obj (prospectData cd)))
    ∧ (getProp cd "COMPANY_ADDRESS" = .undefined →
        getProp (addressBookAddressOf cd) "addr1" = .undefined
        ∧ "addr1" ∉ normalizedKeys (addressBookAddressOf cd))
    ∧ (getProp cd "COMPANY_CITY" = .undefined →
        getProp (addressBookAddressOf cd) "city" = .undefined
        ∧ "city" ∉ normalizedKeys (addressBookAddressOf cd))
    ∧ (getProp cd "COMPANY_STATE" = .undefined →
        getProp (addressBookAddressOf cd) "state" = .undefined
        ∧ "state" ∉ normalizedKeys (addressBookAddressOf cd))
    ∧ (getProp cd "COMPANY_ZIP" = .undefined →
        getProp (addressBookAddressOf cd) "zip" = .undefined
        ∧ "zip" ∉ normalizedKeys (addressBookAddressOf cd))
    ∧ (getProp cd "COMPANY_PHONE" = .undefined →
        getProp (addressBookAddressOf cd) "addrPhone" = .undefined
        ∧ "addrPhone" ∉ normalizedKeys (addressBookAddressOf cd))
    ∧ (getProp cd "COMPANY_NAME" = .undefined →
        getField (prospectData cd) "entityId" =
          .str ("undefined" ++ " - " ++ jsToString (getProp cd "LAST_NAME")))
    ∧ (getProp cd "LAST_NAME" = .undefined →
        getField (prospectData cd) "entityId" =
          .str (jsToString (getProp cd "COMPANY_NAME") ++ " - " ++ "undefined"))
    ∧ (getProp cd "FIRST_NAME" = .undefined →
        getProp (addressBookAddressOf cd) "attention" =
          .str ("undefined" ++ " " ++ jsToString (getProp cd "LAST_NAME")))
    ∧ (getProp cd "LAST_NAME" = .undefined →
        getProp (addressBookAddressOf cd) "attention" =
          .str (jsToString (getProp cd "FIRST_NAME") ++ " " ++ "undefined"))
    ∧ (getProp cd "UUID" = .undefined →
        getField (prospectData cd) "comments" = .str (
          "\n      Source UUID: " ++ "undefined" ++
          "\n      Relevance Score: " ++ jsToString (getProp cd "RELEVANCE_SCORE") ++
          " (Completeness: " ++ jsToString (getProp cd "COMPLETENESS_SCORE") ++ ")" ++
          "\n      COMPANY SUMMARY: " ++ jsToString (getProp cd "COMPANY_SUMMARY") ++
          "\n      RELEVANCE DESCRIPTION: " ++ jsToString (getProp cd "RELEVANCE_DESCRIPTION") ++
          "\n    "))
    ∧ (getProp cd "RELEVANCE_SCORE" = .undefined →
        getField (prospectData cd) "comments" = .str (
          "\n      Source UUID: " ++ jsToString (getProp cd "UUID") ++
          "\n      Relevance Score: " ++ "undefined" ++
          " (Completeness: " ++ jsToString (getProp cd "COMPLETENESS_SCORE") ++ ")" ++
          "\n      COMPANY SUMMARY: " ++ jsToString (getProp cd "COMPANY_SUMMARY") ++
          "\n      RELEVANCE DESCRIPTION: " ++ jsToString (getProp cd "RELEVANCE_DESCRIPTION") ++
          "\n    "))
    ∧ (getProp cd "COMPLETENESS_SCORE" = .undefined →
        getField (prospectData cd) "comments" = .str (
          "\n      Source UUID: " ++ jsToString (getProp cd "UUID") ++
          "\n      Relevance Score: " ++ jsToString (getProp cd "RELEVANCE_SCORE") ++
          " (Completeness: " ++ "undefined" ++ ")" ++
          "\n      COMPANY SUMMARY: " ++ jsToString (getProp cd "COMPANY_SUMMARY") ++
          "\n      RELEVANCE DESCRIPTION: " ++ jsToString (getProp cd "RELEVANCE_DESCRIPTION") ++
          "\n    "))
    ∧ (getProp cd "COMPANY_SUMMARY" = .undefined →
        getField (prospectData cd) "comments" = .str (
          "\n      Source UUID: " ++ jsToString (getProp cd "UUID") ++
          "\n      Relevance Score: " ++ jsToString (getProp cd "RELEVANCE_SCORE") ++
          " (Completeness: " ++ jsToString (getProp cd "COMPLETENESS_SCORE") ++ ")" ++
          "\n      COMPANY SUMMARY: " ++ "undefined" ++
          "\n      RELEVANCE DESCRIPTION: " ++ jsToString (getProp cd "RELEVANCE_DESCRIPTION") ++
          "\n    "))
    ∧ (getProp cd "RELEVANCE_DESCRIPTION" = .undefined →
        getField (prospectData cd) "comments" = .str (
          "\n      Source UUID: " ++ jsToString (getProp cd "UUID") ++
          "\n      Relevance Score: " ++ jsToString (getProp cd "RELEVANCE_SCORE") ++
          " (Completeness: " ++ jsToString (getProp cd "COMPLETENESS_SCORE") ++ ")" ++
          "\n      COMPANY SUMMARY: " ++ jsToString (getProp cd "COMPANY_SUMMARY") ++
          "\n      RELEVANCE DESCRIPTION: " ++ "undefined" ++
          "\n    ")) := by
  have he : getField (prospectData cd) "email" =
      jsOr (jsOptIndex0 (getProp cd "BUSINESS_EMAIL")) (.str "") := rfl
  have ha : getField (prospectData cd) "altEmail" =
      jsOr (jsOptIndex0 (getProp cd "PERSONAL_EMAILS")) (.str "") := rfl
  have hm : getField (prospectData cd) "mobilePhone" =
      jsOr (jsOptIndex0 (getProp cd "MOBILE_PHONE")) (.str "") := rfl
  have hph : getField (prospectData cd) "phone" =
      jsOr (getProp cd "COMPANY_PHONE") (.str "") := rfl
  have hcn : getField (prospectData cd) "companyName" = getProp cd "COMPANY_NAME" := rfl
  have hfn : getField (prospectData cd) "firstName" = getProp cd "FIRST_NAME" := rfl
  have hln : getField (prospectData cd) "lastName" = getProp cd "LAST_NAME" := rfl
  have hti : getField (prospectData cd) "title" = getProp cd "JOB_TITLE" := rfl
  have ha1 : getProp (addressBookAddressOf cd) "addr1" = getProp cd "COMPANY_ADDRESS" := rfl
  have hci : getProp (addressBookAddressOf cd) "city" = getProp cd "COMPANY_CITY" := rfl
  have hst : getProp (addressBookAddressOf cd) "state" = getProp cd "COMPANY_STATE" := rfl
  have hzi : getProp (addressBookAddressOf cd) "zip" = getProp cd "COMPANY_ZIP" := rfl
  have hap : getProp (addressBookAddressOf cd) "addrPhone" = getProp cd "COMPANY_PHONE" := rfl
  have hid : getField (prospectData cd) "entityId" =
      .str (jsToString (getProp cd "COMPANY_NAME") ++ " - " ++
        jsToString (getProp cd "LAST_NAME")) := rfl
  have hat : getProp (addressBookAddressOf cd) "attention" =
      .str (jsToString (getProp cd "FIRST_NAME") ++ " " ++
        jsToString (getProp cd "LAST_NAME")) := rfl
  have hco : getField (prospectData cd) "comments" = .str (
      "\n      Source UUID: " ++ jsToString (getProp cd "UUID") ++
      "\n      Relevance Score: " ++ jsToString (getProp cd "RELEVANCE_SCORE") ++
      " (Completeness: " ++ jsToString (getProp cd "COMPLETENESS_SCORE") ++ ")" ++
      "\n      COMPANY SUMMARY: " ++ jsToString (getProp cd "COMPANY_SUMMARY") ++
      "\n      RELEVANCE DESCRIPTION: " ++ jsToString (getProp cd "RELEVANCE_DESCRIPTION") ++
      "\n    ") := rfl
  refine ⟨?_, ?_, ?_, ?_, ?_, ?_, ?_, ?_, ?_, ?_, ?_, ?_, ?_, ?_, ?_, ?_, ?_, ?_,
    ?_, ?_, ?_, ?_⟩
  · rintro (h | h) <;> (rw [he, h]; rfl)
  · rintro (h | h) <;> (rw [ha, h]; rfl)
  · rintro (h | h) <;> (rw [hm, h]; rfl)
  · rintro (h | h) <;> (rw [hph, h]; rfl)
  · intro h
    refine ⟨by rw [hcn, h], fun hmem => ?_⟩
    obtain ⟨v, hv, hne⟩ := exists_of_mem_normalized_keys _ _ hmem
    simp [prospectData, List.mem_cons, Prod.mk.injEq] at hv
    exact hne (hv ▸ h)
  · intro h
    refine ⟨by rw [hfn, h], fun hmem => ?_⟩
    obtain ⟨v, hv, hne⟩ := exists_of_mem_normalized_keys _ _ hmem
    simp [prospectData, List.mem_cons, Prod.mk.injEq] at hv
    exact hne (hv ▸ h)
  · intro h
    refine ⟨by rw [hln, h], fun hmem => ?_⟩
    obtain ⟨v, hv, hne⟩ := exists_of_mem_normalized_keys _ _ hmem
    simp [prospectData, List.mem_cons, Prod.mk.injEq] at hv
    exact hne (hv ▸ h)
  · intro h
    refine ⟨by rw [hti, h], fun hmem => ?_⟩
    obtain ⟨v, hv, hne⟩ := exists_of_mem_normalized_keys _ _ hmem
    simp [prospectData, List.mem_cons, Prod.mk.injEq] at hv
    exact hne (hv ▸ h)
  · intro h
    refine ⟨by rw [ha1, h], fun hmem => ?_⟩
    obtain ⟨v, hv, hne⟩ := exists_of_mem_normalized_keys _ _ hmem
    simp [List.mem_cons, Prod.mk.injEq] at hv
    exact hne (hv ▸ h)
  · intro h
    refine ⟨by rw [hci, h], fun hmem => ?_⟩
    obtain ⟨v, hv, hne⟩ := exists_of_mem_normalized_keys _ _ hmem
    simp [List.mem_cons, Prod.mk.injEq] at hv
    exact hne (hv ▸ h)
  · intro h
    refine ⟨by rw [hst, h], fun hmem => ?_⟩
    obtain ⟨v, hv, hne⟩ := exists_of_mem_normalized_keys _ _ hmem
    simp [List.mem_cons, Prod.mk.injEq] at hv
    exact hne (hv ▸ h)
  · intro h
    refine ⟨by rw [hzi, h], fun hmem => ?_⟩
    obtain ⟨v, hv, hne⟩ := exists_of_mem_normalized_keys _ _ hmem
    simp [List.mem_cons, Prod.mk.injEq] at hv
    exact hne (hv ▸ h)
  · intro h
    refine ⟨by rw [hap, h], fun hmem => ?_⟩
    obtain ⟨v, hv, hne⟩ := exists_of_mem_normalized_keys _ _ hmem
    simp [List.mem_cons, Prod.mk.injEq] at hv
    exact hne (hv ▸ h)
  · intro h
    rw [hid, h]
    rfl
  · intro h
    rw [hid, h]
    rfl
  · intro h
    rw [hat, h]
    rfl
  · intro h
    rw [hat, h]
    rfl
  · intro h
    rw [hco, h]
    rfl
  · intro h
    rw [hco, h]
    rfl
  · intro h
    rw [hco, h]
    rfl
  · intro h
    rw [hco, h]
    rfl
  · intro h
    rw [hco, h]
    rfl

/-- Witness for the amended C1: the all-absent record exhibits the defaults,
the undefined copies, the serialized-JSON omissions and the "undefined"
interpolations, and a mixed record (company name present, last name absent,
empty company phone) exhibits the per-field behavior independently. -/
theorem absent_fields_amended_witness :
    getField (prospectData (.obj [])) "email" = .str ""
    ∧ getField (prospectData (.obj [])) "phone" = .str ""
    ∧ getField (prospectData (.obj [])) "firstName" = .undefined
    ∧ "firstName" ∉ normalizedKeys (.obj (prospectData (.obj [])))
    ∧ getProp (addressBookAddressOf (.obj [])) "addr1" = .undefined
    ∧ "addr1" ∉ normalizedKeys (addressBookAddressOf (.obj []))
    ∧ getField (prospectData (.obj [])) "entityId" = .str "undefined - undefined"
    ∧ getProp (addressBookAddressOf (.obj [])) "attention" = .str "undefined undefined"
    ∧ getField (prospectData (.obj [])) "comments" = .str
        "\n      Source UUID: undefined\n      Relevance Score: undefined (Completeness: undefined)\n      COMPANY SUMMARY: undefined\n      RELEVANCE DESCRIPTION: undefined\n    "
    ∧ getField (prospectData (.obj [("COMPANY_NAME", .str "Acme"),
        ("COMPANY_PHONE", .str "")])) "entityId" = .str "Acme - undefined"
    ∧ getField (prospectData (.obj [("COMPANY_NAME", .str "Acme"),
        ("COMPANY_PHONE", .str "")])) "phone" = .str "" := by
  obtain ⟨h1, h2, h3, h4, h5, h6, h7, h8, h9, h10, h11, h12, h13, h14, h15, h16,
    h17, h18, h19, h20, h21, h22⟩ := absent_fields_amended (.obj [])
  obtain ⟨g1, g2, g3, g4, g5, g6, g7, g8, g9, g10, g11, g12, g13, g14, g15, g16,
    g17, g18, g19, g20, g21, g22⟩ := absent_fields_amended
      (.obj [("COMPANY_NAME", .str "Acme"), ("COMPANY_PHONE", .str "")])
  exact ⟨h1 (Or.inl rfl), h4 (Or.inl rfl), (h6 rfl).1, (h6 rfl).2, (h9 rfl).1,
    (h9 rfl).2, h14 rfl, h16 rfl, h18 rfl, g15 rfl, g4 (Or.inr rfl)⟩

/-- C2 counterexample: a JSON array body is truthy and its JS typeof is
"object", so the handler does NOT respond 400 on it: validation passes,
the remote call is attempted, and the response is 200. -/
theorem array_body_counterexample :
    jsTypeof (.arr []) = "object"
    ∧ invalidBody (.arr []) = false
    ∧ (createProspectRoute (.arr []) (Except.ok (.obj []))).remoteCalled = true
    ∧ (createProspectRoute (.arr []) (Except.ok (.obj []))).response.status = 200 :=
  ⟨rfl, rfl, rfl, rfl⟩

/-- C2 amended: bodies that are falsy or whose JS typeof is not "object"
(strings, numbers, booleans, undefined) get 400 with the Invalid JSON
payload error and no remote call; a JSON array body, however, passes the
typeof-based check, so the remote call is attempted and 200 is returned. -/
theorem invalid_body_rejected_amended :
    (∀ body remote, (jsTruthy body = false ∨ jsTypeof body ≠ "object") →
        createProspectRoute body remote =
          ⟨⟨400, .obj [("error", .str "Invalid JSON payload")]⟩, false⟩)
    ∧ (∀ xs remote, createProspectRoute (.arr xs) remote =
        ⟨⟨200, .obj [("status", .str "success"),
          ("message", .str "Record created successfully")]⟩, true⟩) := by
  constructor
  · intro body remote h
    have hb : invalidBody body = true := by
      unfold invalidBody
      rcases h with h | h
      · simp [h]
      · have h2 : (jsTypeof body != "object") = true := bne_iff_ne.mpr h
        simp [h2]
    unfold createProspectRoute
    rw [hb]
    rfl
  · intro xs remote
    have hb : invalidBody (.arr xs) = false := rfl
    unfold createProspectRoute
    rw [hb]
    rfl

/-- Witness for the amended C2: a JSON string body is rejected with 400 and
no remote call. -/
theorem invalid_body_rejected_amended_witness :
    createProspectRoute (.str "just a string") (Except.ok (.obj [])) =
      ⟨⟨400, .obj [("error", .str "Invalid JSON payload")]⟩, false⟩ :=
  invalid_body_rejected_amended.1 (.str "just a string") (Except.ok (.obj []))
    (Or.inr (by decide))

/-- C3: for every object body, when the outbound call fails (in either the
transport or the HTTP sense) createProspect returns the structured failure
object rather than raising, while the route handler, which discards that
result, still answers 200 with the fixed success body after attempting the
remote call. -/
theorem remote_failure_swallowed (fs : List (String × JSValue)) (e : AxiosError) :
    createProspect (Except.error e) =
      .obj [("success", .bool false),
        ("error", jsOr (jsOptChainProp e.response "data") (.str e.message))]
    ∧ createProspectRoute (.obj fs) (Except.error e) =
      ⟨⟨200, .obj [("status", .str "success"),
        ("message", .str "Record created successfully")]⟩, true⟩ :=
  ⟨rfl, rfl⟩

/-- C6: the listener is bound iff all five credential environment variables
are present and non-empty; in every other case the process exits with
status 1 (a non-zero status) instead of listening. -/
theorem startup_credential_validation (env : CredentialEnv) :
    (startup env = .listening ↔
      (credPresent env.NETSUITE_ACCOUNT_ID ∧ credPresent env.NETSUITE_CONSUMER_KEY ∧
       credPresent env.NETSUITE_CONSUMER_SECRET ∧ credPresent env.NETSUITE_TOKEN_ID ∧
       credPresent env.NETSUITE_TOKEN_SECRET))
    ∧ (startup env = .exited 1 ∨ startup env = .listening) := by
  obtain ⟨a, b, c, d, e⟩ := env
  constructor
  · rw [← credTruthy_iff, ← credTruthy_iff, ← credTruthy_iff, ← credTruthy_iff,
      ← credTruthy_iff]
    cases ha : credTruthy a <;> cases hb : credTruthy b <;> cases hc : credTruthy c <;>
      cases hd : credTruthy d <;> cases he : credTruthy e <;>
      simp_all [startup]
  · unfold startup
    split
    · exact Or.inl rfl
    · exact Or.inr rfl

/-- C7: the Authorization header sent is the library-generated OAuth header
value with the realm parameter appended after it, and the realm value is
the configured account identifier verbatim (not the transformed form used
in the URL host). -/
theorem realm_appended_verbatim (libAuthorization accountId : String) :
    (outboundRequest accountId libAuthorization).headers.lookup "Authorization" =
      some (authorizationHeaderValue libAuthorization accountId)
    ∧ authorizationHeaderValue libAuthorization accountId =
      libAuthorization ++ ", realm=\"" ++ accountId ++ "\"" :=
  ⟨rfl, rfl⟩

/-- C8: every outbound call is a POST to the URL built from the account id
lowercased with only its first underscore replaced by a hyphen, followed by
the fixed suite domain and path, carrying the signed Authorization (with
realm), Content-Type and Prefer headers. -/
theorem outbound_request_shape (accountId libAuthorization : String) :
    (outboundRequest accountId libAuthorization).method = "POST"
    ∧ (outboundRequest accountId libAuthorization).url =
        "https://" ++ jsReplaceFirstUnderscore (jsToLowerCase accountId) ++
          ".suitetalk.api.netsuite.com/services/rest/record/v1/customer"
    ∧ (∀ a b : List Char, (jsToLowerCase accountId).data = a ++ '_' :: b → '_' ∉ a →
        jsReplaceFirstUnderscore (jsToLowerCase accountId) = ⟨a ++ '-' :: b⟩)
    ∧ (outboundRequest accountId libAuthorization).headers =
        [("Authorization", authorizationHeaderValue libAuthorization accountId),
         ("Content-Type", "application/json"),
         ("Prefer", "return=representation")] := by
  refine ⟨rfl, rfl, ?_, rfl⟩
  intro a b hsplit hnot
  unfold jsReplaceFirstUnderscore
  rw [hsplit, replaceFirstUnderscoreAux_spec a b hnot]

/-- Witness for C8 at account id "TSTDRV_123_456": the URL host part is
"tstdrv-123_456" (lowercased, only the first underscore replaced). -/
theorem outbound_request_shape_witness :
    (outboundRequest "TSTDRV_123_456" "OAuth sig").method = "POST"
    ∧ jsReplaceFirstUnderscore (jsToLowerCase "TSTDRV_123_456") = "tstdrv-123_456" := by
  constructor
  · exact (outbound_request_shape "TSTDRV_123_456" "OAuth sig").1
  · exact (outbound_request_shape "TSTDRV_123_456" "OAuth sig").2.2.1
      "tstdrv".data "123_456".data (by decide) (by decide)

/-- C9: the payload's subsidiary id is the constant "17", its entityStatus
id the constant "8", isPerson is true, and the address book holds exactly
one entry with the fixed flags and label, addressee the company name,
attention interpolated from first and last name, the address parts copied
from the company-address fields, and country fixed to US. -/
theorem payload_constants_and_addressbook (cd : JSValue) (c f l : String)
    (hc : getProp cd "COMPANY_NAME" = .str c)
    (hf : getProp cd "FIRST_NAME" = .str f)
    (hl : getProp cd "LAST_NAME" = .str l) :
    getField (prospectData cd) "subsidiary" = .obj [("id", .str "17")]
    ∧ getField (prospectData cd) "entityStatus" = .obj [("id", .str "8")]
    ∧ getField (prospectData cd) "isPerson" = .bool true
    ∧ getField (prospectData cd) "addressbook" = .obj [
        ("items", .arr [
          .obj [
            ("defaultShipping", .bool true),
            ("defaultBilling", .bool true),
            ("label", .str "Company HQ"),
            ("addressBookAddress", .obj [
              ("addressee", .str c),
              ("attention", .str (f ++ " " ++ l)),
              ("addr1", getProp cd "COMPANY_ADDRESS"),
              ("city", getProp cd "COMPANY_CITY"),
              ("state", getProp cd "COMPANY_STATE"),
              ("zip", getProp cd "COMPANY_ZIP"),
              ("addrPhone", getProp cd "COMPANY_PHONE"),
              ("country", .obj [("id", .str "US")])])]])] := by
  refine ⟨rfl, rfl, rfl, ?_⟩
  have h : getField (prospectData cd) "addressbook" = .obj [
      ("items", .arr [
        .obj [
          ("defaultShipping", .bool true),
          ("defaultBilling", .bool true),
          ("label", .str "Company HQ"),
          ("addressBookAddress", .obj [
            ("addressee", getProp cd "COMPANY_NAME"),
            ("attention", .str (jsToString (getProp cd "FIRST_NAME") ++
                " " ++ jsToString (getProp cd "LAST_NAME"))),
            ("addr1", getProp cd "COMPANY_ADDRESS"),
            ("city", getProp cd "COMPANY_CITY"),
            ("state", getProp cd "COMPANY_STATE"),
            ("zip", getProp cd "COMPANY_ZIP"),
            ("addrPhone", getProp cd "COMPANY_PHONE"),
            ("country", .obj [("id", .str "US")])])]])] := rfl
  rw [h, hc, hf, hl]
  rfl

/-- Witness for C9 at a record with company "Acme", first name "Jane",
last name "Smith" and no address fields. -/
theorem payload_constants_and_addressbook_witness :
    getField (prospectData (.obj [("COMPANY_NAME", .str "Acme"),
        ("FIRST_NAME", .str "Jane"), ("LAST_NAME", .str "Smith")])) "subsidiary" =
      .obj [("id", .str "17")]
    ∧ getField (prospectData (.obj [("COMPANY_NAME", .str "Acme"),
        ("FIRST_NAME", .str "Jane"), ("LAST_NAME", .str "Smith")])) "entityStatus" =
      .obj [("id", .str "8")]
    ∧ getField (prospectData (.obj [("COMPANY_NAME", .str "Acme"),
        ("FIRST_NAME", .str "Jane"), ("LAST_NAME", .str "Smith")])) "isPerson" = .bool true
    ∧ getField (prospectData (.obj [("COMPANY_NAME", .str "Acme"),
        ("FIRST_NAME", .str "Jane"), ("LAST_NAME", .str "Smith")])) "addressbook" = .obj [
        ("items", .arr [
          .obj [
            ("defaultShipping", .bool true),
            ("defaultBilling", .bool true),
            ("label", .str "Company HQ"),
            ("addressBookAddress", .obj [
              ("addressee", .str "Acme"),
              ("attention", .str "Jane Smith"),
              ("addr1", .undefined),
              ("city", .undefined),
              ("state", .undefined),
              ("zip", .undefined),
              ("addrPhone", .undefined),
              ("country", .obj [("id", .str "US")])])]])] :=
  payload_constants_and_addressbook (.obj [("COMPANY_NAME", .str "Acme"),
    ("FIRST_NAME", .str "Jane"), ("LAST_NAME", .str "Smith")]) "Acme" "Jane" "Smith"
    rfl rfl rfl

/-- C10: the payload's top-level firstName, lastName and title fields are
copied verbatim from the inbound FIRST_NAME, LAST_NAME and JOB_TITLE;
when an inbound field is absent the payload field is undefined (omitted by
JSON serialization), not the empty string. -/
theorem verbatim_name_title_fields (cd : JSValue) :
    getField (prospectData cd) "firstName" = getProp cd "FIRST_NAME"
    ∧ getField (prospectData cd) "lastName" = getProp cd "LAST_NAME"
    ∧ getField (prospectData cd) "title" = getProp cd "JOB_TITLE"
    ∧ (getProp cd "FIRST_NAME" = .undefined →
        getField (prospectData cd) "firstName" ≠ .str ""
        ∧ "firstName" ∉ (jsonNormalizeFields (prospectData cd)).map Prod.fst)
    ∧ (getProp cd "LAST_NAME" = .undefined →
        "lastName" ∉ (jsonNormalizeFields (prospectData cd)).map Prod.fst)
    ∧ (getProp cd "JOB_TITLE" = .undefined →
        "title" ∉ (jsonNormalizeFields (prospectData cd)).map Prod.fst) := by
  have hfn : getField (prospectData cd) "firstName" = getProp cd "FIRST_NAME" := rfl
  refine ⟨rfl, rfl, rfl, ?_, ?_, ?_⟩
  · intro h
    constructor
    · rw [hfn, h]
      exact fun hcontra => JSValue.noConfusion hcontra
    · intro hmem
      obtain ⟨v, hv, hne⟩ := exists_of_mem_normalized_keys _ _ hmem
      simp [prospectData, List.mem_cons, Prod.mk.injEq] at hv
      exact hne (hv ▸ h)
  · intro h hmem
    obtain ⟨v, hv, hne⟩ := exists_of_mem_normalized_keys _ _ hmem
    simp [prospectData, List.mem_cons, Prod.mk.injEq] at hv
    exact hne (hv ▸ h)
  · intro h hmem
    obtain ⟨v, hv, hne⟩ := exists_of_mem_normalized_keys _ _ hmem
    simp [prospectData, List.mem_cons, Prod.mk.injEq] at hv
    exact hne (hv ▸ h)

/-- Witness for C10 at the record with every field absent: firstName is
dropped from the serialized payload. -/
theorem verbatim_name_title_fields_witness :
    getField (prospectData (.obj [])) "firstName" ≠ .str ""
    ∧ "firstName" ∉ (jsonNormalizeFields (prospectData (.obj []))).map Prod.fst :=
  (verbatim_name_title_fields (.obj [])).2.2.2.1 rfl

end OptimedApi
